import Mathlib

/-!
Verification development for the EEG Streamer (`EEGStreamer.py`).

The development shallowly embeds the four algorithmic parts of the source:

* `sleep_and_sync` — the adaptive rate controller (source lines 199-231);
* `decode` — the inbound payload decoder (source lines 192-197);
* the inline classifier of `listen` (source lines 159-164), here `classify`;
* the sample encoder and session-state initialisation of `start`
  (source lines 104-116), here `encode` and `initSession`.

Python floats are modelled as exact rationals (ℚ); Python exceptions are
modelled as `Except` values.  A raw wire payload (a byte string) is
represented by the result of parsing it as a Python literal: `some pv`
when `ast.literal_eval` succeeds with the literal value `pv`, and `none`
when the byte string is not a well-formed literal.
-/

/-- Python literal values, as produced by `ast.literal_eval`: numbers,
strings, lists and string-keyed dicts cover every payload shape the
streamer exchanges. -/
inductive PyVal where
  | num (q : ℚ)
  | str (s : String)
  | list (elems : List PyVal)
  | dict (entries : List (String × PyVal))

/-- Failure modes of the decode path, the spec's `DecodeError` taxonomy:
`malformedLiteral` models `ValueError`/`SyntaxError` from `ast.literal_eval`,
`keyError k` models `KeyError` on `mydata[k]`, `indexError` models
`IndexError` on `v[0]`, and `typeError` models `TypeError` from
subscripting a non-dict literal. -/
inductive DecodeError where
  | malformedLiteral
  | keyError (k : String)
  | indexError
  | typeError
deriving DecidableEq

/-- Closed outcome variants of the Classifier Mapper. -/
inductive Outcome where
  | Seizure
  | Background
  | Unknown (label : String)
deriving DecidableEq

/-- Python dict-literal lookup: a literal with duplicate keys keeps the
last binding, hence the left fold that overwrites earlier matches. -/
def pyLookup (entries : List (String × PyVal)) (k : String) : Option PyVal :=
  entries.foldl (fun acc e => if e.1 = k then some e.2 else acc) none

/-- Decoder, from `EEGStreamer.decode` (source lines 192-197):
`mydata = ast.literal_eval(value.decode("UTF-8")); return mydata['t'], mydata['v']`.
The `key` argument is accepted and ignored, exactly as in the source.
A byte string that is not a valid literal parses to `none` and the
`ValueError` it raises is the `malformedLiteral` failure; a literal that
is not a dict makes `mydata['t']` raise `TypeError`; a dict missing
`'t'` or `'v'` raises `KeyError`. -/
def decode (key : String) (value : Option PyVal) : Except DecodeError (PyVal × PyVal) :=
  match value with
  | none => Except.error DecodeError.malformedLiteral
  | some (PyVal.dict entries) =>
    match pyLookup entries "t" with
    | none => Except.error (DecodeError.keyError "t")
    | some t =>
      match pyLookup entries "v" with
      | none => Except.error (DecodeError.keyError "v")
      | some v => Except.ok (t, v)
  | some _ => Except.error DecodeError.typeError

/-- A payload is well-formed when it parses to a dict literal carrying
both a `'t'` and a `'v'` key: exactly the inputs on which `decode`
returns normally. -/
def wellFormedPayload (value : Option PyVal) : Bool :=
  match value with
  | some (PyVal.dict entries) =>
    (pyLookup entries "t").isSome && (pyLookup entries "v").isSome
  | _ => false

/-- Classifier Mapper, from the branch of `EEGStreamer.listen` at source
lines 159-164: `v[0]` is compared case-exactly against `'pres'` and
`'bckg'`, any other first string is reported as unrecognised (the
`Unknown` outcome), and on an empty `v` the subscript `v[0]` fails
(Python raises `IndexError`, the decode-taxonomy failure for a result
payload with no values). -/
def classify (values : List String) : Except DecodeError Outcome :=
  match values with
  | [] => Except.error DecodeError.indexError
  | v0 :: _ =>
    if v0 = "pres" then Except.ok Outcome.Seizure
    else if v0 = "bckg" then Except.ok Outcome.Background
    else Except.ok (Outcome.Unknown v0)

/-- Python subscript `v[0]` on a decoded literal: head of a list,
first character of a string, `IndexError` when empty, `TypeError` on a
number or dict. -/
def pyIndex0 (v : PyVal) : Except DecodeError PyVal :=
  match v with
  | PyVal.list [] => Except.error DecodeError.indexError
  | PyVal.list (x :: _) => Except.ok x
  | PyVal.str s =>
    match s.data with
    | [] => Except.error DecodeError.indexError
    | c :: _ => Except.ok (PyVal.str (String.mk [c]))
  | _ => Except.error DecodeError.typeError

/-- Python equality of a decoded literal against a string constant,
as in `v[0] == 'pres'`: only a string literal can compare equal. -/
def pyEqStr (v : PyVal) (s : String) : Bool :=
  match v with
  | PyVal.str t => t = s
  | _ => false

/-- Result of one `listen` step on a successfully received message:
either the message key differs from the sentinel and the message is
ignored, or the payload is decoded and its first value rendered, or a
decode-path exception is raised. -/
inductive ListenResult where
  | ignoredKey
  | decodeFailed (e : DecodeError)
  | renderSeizure (t : PyVal)
  | renderBackground (t : PyVal)
  | renderUnknown (t : PyVal) (v0 : PyVal)

/-- Handling of a received message in `EEGStreamer.listen` (source lines
150-164): if the key is not the sentinel `'key'` the method returns
`None` before any decoding; otherwise the payload is decoded, `v[0]`
extracted and classified, and the corresponding line rendered. -/
def listenStep (key : String) (value : Option PyVal) : ListenResult :=
  if key ≠ "key" then ListenResult.ignoredKey
  else
    match decode key value with
    | Except.error e => ListenResult.decodeFailed e
    | Except.ok (t, v) =>
      match pyIndex0 v with
      | Except.error e => ListenResult.decodeFailed e
      | Except.ok v0 =>
        if pyEqStr v0 "pres" then ListenResult.renderSeizure t
        else if pyEqStr v0 "bckg" then ListenResult.renderBackground t
        else ListenResult.renderUnknown t v0

/-- A Python float of the streamed samples: finite (an exact rational in
this model) or one of the non-finite values. -/
inductive PyFloat where
  | finite (q : ℚ)
  | nan
  | inf
  | ninf
deriving DecidableEq

/-- Whether a sample value is finite. -/
def PyFloat.isFinite : PyFloat → Bool
  | PyFloat.finite _ => true
  | _ => false

/-- The rational carried by a finite sample value (0 for the non-finite
values, which the encoder model never reads on a finite input). -/
def PyFloat.toRat : PyFloat → ℚ
  | PyFloat.finite q => q
  | _ => 0

/-- Rounding to six decimal places, the effect of the `'%.6f'` format
used for both the timestamp and every channel value. -/
def round6 (q : ℚ) : ℚ := (round (q * 1000000) : ℤ) / 1000000

/-- An outbound wire message: the Kafka key (the montage code) and the
value byte string, represented by its parse as a Python literal. -/
structure WireMessage where
  key : String
  payload : Option PyVal

/-- The parse of the payload string `"{'t':%.6f,'v':[...]}"` built in
`EEGStreamer.start` (source lines 112-115).  When every value is finite
the string is a valid dict literal whose numbers are the inputs rounded
to six decimals; when some value is non-finite, `'%.6f'` formats it as
`nan`/`inf` and the resulting string is not a valid Python literal, so
its parse is `none`. -/
def encodePayload (timestamp : ℚ) (values : List PyFloat) : Option PyVal :=
  if values.all PyFloat.isFinite then
    some (PyVal.dict
      [("t", PyVal.num (round6 timestamp)),
       ("v", PyVal.list (values.map (fun v => PyVal.num (round6 v.toRat))))])
  else none

/-- Encoder, from `EEGStreamer.start` (source lines 112-116): joins the
six-decimal formatted channel values, wraps them with the six-decimal
timestamp, and publishes with the montage code as the key.  The source
performs no finiteness check, so a message is produced for every input. -/
def encode (montage : String) (timestamp : ℚ) (values : List PyFloat) : WireMessage :=
  { key := montage, payload := encodePayload timestamp values }

/-- The timing-related configuration fields read by `sleep_and_sync`:
`delay_refresh_intv` (source value `1.0`) and `sampling_rate`
(source value `256`). -/
structure StreamerConfig where
  delay_refresh_intv : ℚ
  sampling_rate : ℕ

/-- The configuration set in `EEGStreamer.__init__`. -/
def defaultStreamer : StreamerConfig :=
  { delay_refresh_intv := 1, sampling_rate := 256 }

/-- Rate controller, from `EEGStreamer.sleep_and_sync` (source lines
199-231).  The clock reading `time()` is passed in as `now`.  The count
is incremented; when it equals `delay_refresh_intv * sampling_rate` the
deviation from the target interval is measured against the heartbeat,
the delay is adjusted with dampening factor `0.5`, a negative adjusted
delay triggers the `ValueError` branch that resets it to `0`, and the
count and heartbeat are reset. -/
def sleep_and_sync (cfg : StreamerConfig) (sampling_delay : ℚ) (sampling_count : ℕ)
    (heart_beat : ℚ) (now : ℚ) : ℚ × ℕ × ℚ :=
  let count1 := sampling_count + 1
  if ((count1 : ℚ) = cfg.delay_refresh_intv * (cfg.sampling_rate : ℚ)) then
    let new_heartbeat := now
    let duration := new_heartbeat - heart_beat
    let deviation := (cfg.delay_refresh_intv - duration) * 1000
    let adjusted := sampling_delay +
      deviation / (cfg.delay_refresh_intv * 1000) / (cfg.sampling_rate : ℚ) * (0.5 : ℚ)
    let clamped := if adjusted < 0 then 0 else adjusted
    (clamped, 0, new_heartbeat)
  else
    (sampling_delay, count1, heart_beat)

/-- Whether `sleep_and_sync` prints the negative-delay warning on the
given inputs: the correction fires and the adjusted delay is negative. -/
def sleep_and_sync_warns (cfg : StreamerConfig) (sampling_delay : ℚ) (sampling_count : ℕ)
    (heart_beat : ℚ) (now : ℚ) : Bool :=
  let count1 := sampling_count + 1
  if ((count1 : ℚ) = cfg.delay_refresh_intv * (cfg.sampling_rate : ℚ)) then
    let duration := now - heart_beat
    let deviation := (cfg.delay_refresh_intv - duration) * 1000
    decide (sampling_delay +
      deviation / (cfg.delay_refresh_intv * 1000) / (cfg.sampling_rate : ℚ) * (0.5 : ℚ) < 0)
  else false

/-- Iterating the rate controller over a sequence of clock readings,
threading the `(delay, count, heartbeat)` state as the stream loop does. -/
def runController (cfg : StreamerConfig) : ℚ × ℕ × ℚ → List ℚ → ℚ × ℕ × ℚ
  | st, [] => st
  | st, now :: rest =>
    runController cfg (sleep_and_sync cfg st.1 st.2.1 st.2.2 now) rest

/-- Session state held by the stream loop. -/
structure SessionState where
  delay : ℚ
  tickCount : ℕ
  lastHeartbeat : ℚ
  startTime : ℚ
deriving DecidableEq

/-- Session-state initialisation on the `Idle → Streaming` transition,
from `EEGStreamer.start` (source lines 104-107): two successive clock
readings are taken (`start_time = time(); heart_beat = time()`), the
delay starts at `0.8 / streaming_rate`, and the count starts at `1`. -/
def initSession (streaming_rate : ℕ) (now1 now2 : ℚ) : SessionState :=
  { delay := (0.8 : ℚ) / (streaming_rate : ℚ)
    tickCount := 1
    lastHeartbeat := now2
    startTime := now1 }

lemma sleep_and_sync_fst_nonneg (cfg : StreamerConfig) (d : ℚ) (c : ℕ) (hb now : ℚ)
    (hd : 0 ≤ d) : 0 ≤ (sleep_and_sync cfg d c hb now).1 := by
  simp only [sleep_and_sync]
  split_ifs with h1 h2
  · exact le_refl 0
  · exact le_of_not_lt h2
  · exact hd

lemma runController_fst_nonneg (cfg : StreamerConfig) (nows : List ℚ) :
    ∀ st : ℚ × ℕ × ℚ, 0 ≤ st.1 → 0 ≤ (runController cfg st nows).1 := by
  induction nows with
  | nil => intro st h; simpa [runController] using h
  | cons a tl ih =>
    intro st h
    simp only [runController]
    exact ih _ (sleep_and_sync_fst_nonneg cfg st.1 st.2.1 st.2.2 a h)

/-- C9: on every tick where the incremented count does not equal
`delay_refresh_intv * sampling_rate`, `sleep_and_sync` returns the delay
and heartbeat unchanged and the count incremented by exactly one. -/
theorem c9_frame_condition (cfg : StreamerConfig) (d : ℚ) (c : ℕ) (hb now : ℚ)
    (hne : ((c + 1 : ℕ) : ℚ) ≠ cfg.delay_refresh_intv * (cfg.sampling_rate : ℚ)) :
    sleep_and_sync cfg d c hb now = (d, c + 1, hb) := by
  simp only [sleep_and_sync]
  rw [if_neg hne]

/-- Witness for C9 at the source configuration: count 0 does not trigger
the correction, so the state passes through with the count incremented. -/
theorem c9_frame_condition_witness :
    ((0 + 1 : ℕ) : ℚ) ≠ defaultStreamer.delay_refresh_intv * (defaultStreamer.sampling_rate : ℚ) ∧
      sleep_and_sync defaultStreamer 3 0 0 7 = (3, 1, 0) :=
  ⟨by norm_num [defaultStreamer], c9_frame_condition defaultStreamer 3 0 0 7
    (by norm_num [defaultStreamer])⟩

/-- C1 counterexample: at the source configuration, with delay `0`,
count `255`, heartbeat `0` and clock `2`, the correction fires and the
claimed formula evaluates to `-1/512`, but `sleep_and_sync` returns
delay `0`: the returned delay is not the uncorrected formula value. -/
theorem c1_counterexample :
    (sleep_and_sync defaultStreamer 0 255 0 2).1 ≠
      0 + ((defaultStreamer.delay_refresh_intv - (2 - 0)) * 1000) /
        (defaultStreamer.delay_refresh_intv * 1000) /
        (defaultStreamer.sampling_rate : ℚ) * (0.5 : ℚ) := by
  norm_num [sleep_and_sync, defaultStreamer]

/-- C1 amended: `sleep_and_sync` increments the count, and exactly when
the incremented count equals `delay_refresh_intv * sampling_rate` it
returns the delay adjusted by the dampened deviation, clamped below at
`0`, with the count reset to `0` and the heartbeat set to `now`;
otherwise it returns the state unchanged apart from the increment. -/
theorem c1_correction_step (cfg : StreamerConfig) (d : ℚ) (c : ℕ) (hb now : ℚ) :
    sleep_and_sync cfg d c hb now =
      if ((c + 1 : ℕ) : ℚ) = cfg.delay_refresh_intv * (cfg.sampling_rate : ℚ) then
        (max (d + ((cfg.delay_refresh_intv - (now - hb)) * 1000) /
            (cfg.delay_refresh_intv * 1000) / (cfg.sampling_rate : ℚ) * (0.5 : ℚ)) 0,
          0, now)
      else (d, c + 1, hb) := by
  simp only [sleep_and_sync]
  split_ifs with h1 h2
  · rw [max_eq_right (le_of_lt h2)]
  · rw [max_eq_left (le_of_not_lt h2)]
  · rfl

/-- C2: the rate controller preserves the data-model invariant
`delay ≥ 0`: a nonnegative input delay yields a nonnegative output
delay on a single tick; whenever the correction fires and the adjusted
delay would be negative it is clamped to exactly `0` and the warning is
emitted; and along every sequence of clock readings from a state with
nonnegative delay the returned delay stays nonnegative. -/
theorem c2_delay_nonneg (cfg : StreamerConfig) (d : ℚ) (c : ℕ) (hb now : ℚ)
    (st : ℚ × ℕ × ℚ) (nows : List ℚ) :
    (0 ≤ d → 0 ≤ (sleep_and_sync cfg d c hb now).1) ∧
    (((c + 1 : ℕ) : ℚ) = cfg.delay_refresh_intv * (cfg.sampling_rate : ℚ) →
      d + ((cfg.delay_refresh_intv - (now - hb)) * 1000) /
          (cfg.delay_refresh_intv * 1000) / (cfg.sampling_rate : ℚ) * (0.5 : ℚ) < 0 →
      (sleep_and_sync cfg d c hb now).1 = 0 ∧
        sleep_and_sync_warns cfg d c hb now = true) ∧
    (0 ≤ st.1 → 0 ≤ (runController cfg st nows).1) := by
  refine ⟨sleep_and_sync_fst_nonneg cfg d c hb now, ?_, runController_fst_nonneg cfg nows st⟩
  intro hfire hneg
  constructor
  · simp only [sleep_and_sync]
    rw [if_pos hfire, if_pos hneg]
  · simp only [sleep_and_sync_warns]
    rw [if_pos hfire]
    exact decide_eq_true hneg

/-- Witness for C2 at the source configuration: with delay `0`, count
`255`, heartbeat `0` and clock `2` the adjusted delay is `-1/512`, the
returned delay is exactly `0` and the warning fires; and the iterated
controller keeps the delay nonnegative from the state `(1, 0, 0)` over
the readings `[1, 2, 3]`. -/
theorem c2_delay_nonneg_witness :
    (sleep_and_sync defaultStreamer 0 255 0 2).1 = 0 ∧
      sleep_and_sync_warns defaultStreamer 0 255 0 2 = true ∧
      0 ≤ (runController defaultStreamer (1, 0, 0) [1, 2, 3]).1 := by
  have h := c2_delay_nonneg defaultStreamer 0 255 0 2 (1, 0, 0) [1, 2, 3]
  have h2 := h.2.1 (by norm_num [defaultStreamer]) (by norm_num [defaultStreamer])
  exact ⟨h2.1, h2.2, h.2.2 (by norm_num)⟩

/-- C5 counterexample: the session state created by `start` has its tick
count initialised to `1`, not `0`. -/
theorem c5_counterexample : ¬ ((initSession 256 0 0).tickCount = 0) := by
  simp [initSession]

/-- C5 amended: on the `Idle → Streaming` transition the session state is
initialised with delay `0.8 / streaming_rate`, tick count `1`, and the
start time and heartbeat set to the two successive clock readings. -/
theorem c5_initial_state (streaming_rate : ℕ) (now1 now2 : ℚ) :
    (initSession streaming_rate now1 now2).delay = (4 / 5) / (streaming_rate : ℚ) ∧
      (initSession streaming_rate now1 now2).tickCount = 1 ∧
      (initSession streaming_rate now1 now2).lastHeartbeat = now2 ∧
      (initSession streaming_rate now1 now2).startTime = now1 := by
  refine ⟨?_, rfl, rfl, rfl⟩
  norm_num [initSession]

lemma all_finite_map (vs : List ℚ) :
    (vs.map PyFloat.finite).all PyFloat.isFinite = true := by
  induction vs with
  | nil => rfl
  | cons a tl ih => simp [PyFloat.isFinite, ih]

lemma round6_close (q : ℚ) : |round6 q - q| ≤ 1 / 1000000 := by
  have h := abs_sub_round (q * 1000000)
  rw [abs_le] at h ⊢
  unfold round6
  constructor <;> [linarith [h.1, h.2]; linarith [h.1, h.2]]

/-- C3: decoding the encoded wire payload of a finite timestamp and
finite values recovers the timestamp and the values rounded to six
decimals — each within `1e-6` of the original, with the order and
length of the values preserved (the decoded list is exactly the
elementwise rounding of the input list). -/
theorem c3_roundtrip (k montage : String) (t : ℚ) (vs : List ℚ) :
    decode k (encode montage t (vs.map PyFloat.finite)).payload =
      Except.ok (PyVal.num (round6 t),
        PyVal.list (vs.map (fun q => PyVal.num (round6 q)))) ∧
      |round6 t - t| ≤ 1 / 1000000 ∧
      (vs.map round6).length = vs.length ∧
      ∀ q ∈ vs, |round6 q - q| ≤ 1 / 1000000 := by
  refine ⟨?_, round6_close t, vs.length_map round6, fun q _ => round6_close q⟩
  simp [encode, encodePayload, all_finite_map, decode, pyLookup, List.map_map,
    Function.comp, PyFloat.toRat]

/-- Witness for C3 at a concrete payload: timestamp `3/2` and values
`[2, 5/4]` survive the round trip exactly (they need at most six
decimals), and the tolerance bound holds at the member `2`. -/
theorem c3_roundtrip_witness :
    decode "key" (encode "1020" (3 / 2) ([2, 5 / 4].map PyFloat.finite)).payload =
      Except.ok (PyVal.num (round6 (3 / 2)),
        PyVal.list ([2, 5 / 4].map (fun q => PyVal.num (round6 q)))) ∧
      |round6 2 - 2| ≤ 1 / 1000000 := by
  have h := c3_roundtrip "key" "1020" (3 / 2) [2, 5 / 4]
  exact ⟨h.1, h.2.2.2 2 (by simp)⟩

/-- C4: the classifier is total and deterministic on the first decoded
value, compared case-exactly: `pres` yields `Seizure`, `bckg` yields
`Background`, any other first string yields `Unknown` carrying that
label, and the empty list fails with a decode-taxonomy error (the
source's `v[0]` raises `IndexError`). -/
theorem c4_classifier (rest : List String) (s : String)
    (hp : s ≠ "pres") (hb : s ≠ "bckg") :
    classify ("pres" :: rest) = Except.ok Outcome.Seizure ∧
      classify ("bckg" :: rest) = Except.ok Outcome.Background ∧
      classify (s :: rest) = Except.ok (Outcome.Unknown s) ∧
      classify [] = Except.error DecodeError.indexError := by
  refine ⟨rfl, rfl, ?_, rfl⟩
  simp [classify, hp, hb]

/-- Witness for C4 at the label `xyz`: it is neither `pres` nor `bckg`,
so it classifies to `Unknown xyz`, and the empty list fails. -/
theorem c4_classifier_witness :
    classify ["xyz"] = Except.ok (Outcome.Unknown "xyz") ∧
      classify [] = Except.error DecodeError.indexError := by
  have h := c4_classifier [] "xyz" (by decide) (by decide)
  exact ⟨h.2.2.1, h.2.2.2⟩

/-- C6: on every raw payload that is not well-formed — not a parseable
literal, not a dict, or a dict missing the `t` or `v` key — `decode`
fails with a `DecodeError` value; the failure is the return value of
the decode call itself, touching no other state. -/
theorem c6_decode_fails (k : String) (value : Option PyVal)
    (hwf : wellFormedPayload value = false) :
    ∃ e : DecodeError, decode k value = Except.error e := by
  match value with
  | none => exact ⟨DecodeError.malformedLiteral, rfl⟩
  | some (PyVal.num q) => exact ⟨DecodeError.typeError, rfl⟩
  | some (PyVal.str s) => exact ⟨DecodeError.typeError, rfl⟩
  | some (PyVal.list es) => exact ⟨DecodeError.typeError, rfl⟩
  | some (PyVal.dict entries) =>
    cases hcase : pyLookup entries "t" with
    | none => exact ⟨DecodeError.keyError "t", by simp [decode, hcase]⟩
    | some tval =>
      cases hv : pyLookup entries "v" with
      | none => exact ⟨DecodeError.keyError "v", by simp [decode, hcase, hv]⟩
      | some vval =>
        exfalso
        simp [wellFormedPayload, hcase, hv] at hwf

/-- Witness for C6 at the unparseable payload: `none` is not
well-formed and `decode` fails on it. -/
theorem c6_decode_fails_witness :
    wellFormedPayload none = false ∧
      ∃ e : DecodeError, decode "key" none = Except.error e :=
  ⟨rfl, c6_decode_fails "key" none rfl⟩

/-- C7, evaluating the source at the failing input: encoding the
single-value list `[nan]` does not fail — the source performs no
finiteness check — and a wire message is produced whose payload is not
even a parseable literal. -/
theorem c7_encode_no_finiteness_check :
    encode "1020" 0 [PyFloat.nan] = { key := "1020", payload := none } := rfl

/-- C8: a received message whose key differs from the sentinel `key` is
ignored: the listen step returns before decoding, produces no outcome,
and its result does not depend on the payload at all. -/
theorem c8_foreign_key_ignored (key : String) (v1 v2 : Option PyVal)
    (hk : key ≠ "key") :
    listenStep key v1 = ListenResult.ignoredKey ∧
      listenStep key v1 = listenStep key v2 := by
  constructor <;> simp [listenStep, hk]

/-- Witness for C8 at the key `other`: the message is ignored whatever
its payload. -/
theorem c8_foreign_key_ignored_witness :
    listenStep "other" none = ListenResult.ignoredKey ∧
      listenStep "other" none = listenStep "other" (some (PyVal.num 0)) :=
  c8_foreign_key_ignored "other" none (some (PyVal.num 0)) (by decide)

/-- C10: the result of `decode` depends only on its value argument — the
key parameter is accepted and never read, so any two keys give the same
result on every payload. -/
theorem c10_decode_ignores_key (k1 k2 : String) (value : Option PyVal) :
    decode k1 value = decode k2 value := rfl
